import Mathlib

/-!
# OLEDShift: the window repositioning calculation

A shallow embedding of `ConsoleApplication1.cpp`.  The only logic of the program is the
position calculation inside `EnumWindowsProc` (lines 47-77 of the source): a random
perturbation of the window's top-left corner, a clamp to the monitor rectangle and a
final correction for the taskbar.

The C++ `int` values are embedded twice:

* over unbounded `Int` (definitions without suffix), which is the meaning of the source
  whenever no signed overflow occurs;
* over 32-bit two's-complement wrap-around (definitions with suffix `32`), where every
  arithmetic result is reduced with `wrap32`.

`rand()` returns a value in `[0, RAND_MAX]`, so a draw is a `Nat`.  The C++ operator `%`
truncates towards zero (`Int.tmod`) and faults on a zero divisor; a fault is `none`.
-/

namespace OLEDShift

/-! ## Data model -/

/-- Windows `RECT`: four `LONG` pixel coordinates. -/
structure RECT where
  left : Int
  top : Int
  right : Int
  bottom : Int
  deriving DecidableEq, Repr

/-- The fields of `WINDOWPLACEMENT` that `EnumWindowsProc` reads. -/
structure WINDOWPLACEMENT where
  showCmd : Nat
  rcNormalPosition : RECT
  deriving DecidableEq, Repr

/-- The field of `MONITORINFO` that `EnumWindowsProc` reads. -/
structure MONITORINFO where
  rcMonitor : RECT
  deriving DecidableEq, Repr

/-- Win32 constant `SW_SHOWMAXIMIZED`. -/
def SW_SHOWMAXIMIZED : Nat := 3

/-- Win32 constant `ABS_AUTOHIDE`. -/
def ABS_AUTOHIDE : Nat := 1

/-- Source line 5: `int MAX_MOVE_X = 50;`. -/
def MAX_MOVE_X : Int := 50

/-- Source line 6: `int MAX_MOVE_Y = 50;`. -/
def MAX_MOVE_Y : Int := 50

/-! ## C++ integer primitives -/

/-- The `min(a,b)` macro of `Windows.h`: `(((a) < (b)) ? (a) : (b))`. -/
def min (a b : Int) : Int := if a < b then a else b

/-- The `max(a,b)` macro of `Windows.h`: `(((a) > (b)) ? (a) : (b))`. -/
def max (a b : Int) : Int := if a > b then a else b

/-- The C++ operator `%` on `int`: remainder of the division truncated towards zero;
a zero divisor is a fault (`none`). -/
def cRem (a b : Int) : Option Int :=
  if b = 0 then none else some (Int.tmod a b)

/-! ## Operating-system queries (lines 8-25) -/

/-- Lines 8-17: `isTaskbarAutoHidden`, as a function of the value returned by
`SHAppBarMessage(ABM_GETSTATE, ..)`. -/
def isTaskbarAutoHidden (appBarState : Nat) : Bool :=
  if appBarState &&& ABS_AUTOHIDE ≠ 0 then true else false

/-- Lines 19-25: `getTaskbarHeight`, as a function of the work area rectangle and of
`GetSystemMetrics(SM_CYSCREEN)`. -/
def getTaskbarHeight (workAreaRect : RECT) (cyScreen : Int) : Int :=
  let screenHeight := cyScreen
  screenHeight - (workAreaRect.bottom - workAreaRect.top)

/-! ## The position calculation (lines 47-77), over unbounded integers -/

/-- Line 48. -/
def screenWidth (monitorInfo : MONITORINFO) : Int :=
  monitorInfo.rcMonitor.right - monitorInfo.rcMonitor.left

/-- Line 49. -/
def screenHeight (monitorInfo : MONITORINFO) : Int :=
  monitorInfo.rcMonitor.bottom - monitorInfo.rcMonitor.top

/-- Line 52. -/
def windowWidth (wp : WINDOWPLACEMENT) : Int :=
  wp.rcNormalPosition.right - wp.rcNormalPosition.left

/-- Line 53. -/
def windowHeight (wp : WINDOWPLACEMENT) : Int :=
  wp.rcNormalPosition.bottom - wp.rcNormalPosition.top

/-- Line 56: the movement radius on the X axis; `maxX` is the value of the global
`MAX_MOVE_X`. -/
def maxMoveX (maxX : Int) (monitorInfo : MONITORINFO) (wp : WINDOWPLACEMENT) : Int :=
  min maxX (screenWidth monitorInfo - windowWidth wp)

/-- Line 57: the movement radius on the Y axis; `maxY` is the value of the global
`MAX_MOVE_Y`. -/
def maxMoveY (maxY : Int) (monitorInfo : MONITORINFO) (wp : WINDOWPLACEMENT) : Int :=
  min maxY (screenHeight monitorInfo - windowHeight wp)

/-- The divisor `2 * maxMoveX + 1` of line 60. -/
def modulusX (maxX : Int) (monitorInfo : MONITORINFO) (wp : WINDOWPLACEMENT) : Int :=
  2 * maxMoveX maxX monitorInfo wp + 1

/-- The divisor `2 * maxMoveY + 1` of line 61. -/
def modulusY (maxY : Int) (monitorInfo : MONITORINFO) (wp : WINDOWPLACEMENT) : Int :=
  2 * maxMoveY maxY monitorInfo wp + 1

/-- Line 60: the perturbed X coordinate, `r` being the value returned by `rand()`. -/
def randomX (maxX : Int) (monitorInfo : MONITORINFO) (wp : WINDOWPLACEMENT) (r : Nat) :
    Option Int :=
  (cRem (r : Int) (modulusX maxX monitorInfo wp)).map fun rem =>
    wp.rcNormalPosition.left + rem - maxMoveX maxX monitorInfo wp

/-- Line 61: the perturbed Y coordinate, `r` being the value returned by `rand()`. -/
def randomY (maxY : Int) (monitorInfo : MONITORINFO) (wp : WINDOWPLACEMENT) (r : Nat) :
    Option Int :=
  (cRem (r : Int) (modulusY maxY monitorInfo wp)).map fun rem =>
    wp.rcNormalPosition.top + rem - maxMoveY maxY monitorInfo wp

/-- Line 64: the clamp of the X coordinate to the monitor rectangle. -/
def clampX (monitorInfo : MONITORINFO) (wp : WINDOWPLACEMENT) (randomX : Int) : Int :=
  max monitorInfo.rcMonitor.left
    (min randomX (monitorInfo.rcMonitor.right - windowWidth wp))

/-- Line 65: the clamp of the Y coordinate to the monitor rectangle. -/
def clampY (monitorInfo : MONITORINFO) (wp : WINDOWPLACEMENT) (randomY : Int) : Int :=
  max monitorInfo.rcMonitor.top
    (min randomY (monitorInfo.rcMonitor.bottom - windowHeight wp))

/-- Lines 68-77: the taskbar correction of the Y coordinate. -/
def taskbarAdjust (monitorInfo : MONITORINFO) (wp : WINDOWPLACEMENT)
    (autoHidden : Bool) (taskbarHeight : Int) (randomY : Int) : Int :=
  if autoHidden then
    max randomY (monitorInfo.rcMonitor.top + taskbarHeight)
  else
    min randomY (monitorInfo.rcMonitor.bottom - windowHeight wp - taskbarHeight)

/-- Lines 47-77: the position `(randomX, randomY)` handed to `SetWindowPos`.
`maxX`, `maxY` are the globals `MAX_MOVE_X`, `MAX_MOVE_Y`; `autoHidden` and
`taskbarHeight` are the results of `isTaskbarAutoHidden()` and `getTaskbarHeight()`;
`r1`, `r2` are the two successive results of `rand()`.  `none` is a division fault. -/
def newPosition (maxX maxY : Int) (wp : WINDOWPLACEMENT) (monitorInfo : MONITORINFO)
    (autoHidden : Bool) (taskbarHeight : Int) (r1 r2 : Nat) : Option (Int × Int) :=
  match randomX maxX monitorInfo wp r1 with
  | none => none
  | some x0 =>
    match randomY maxY monitorInfo wp r2 with
    | none => none
    | some y0 =>
      let x := clampX monitorInfo wp x0
      let y := clampY monitorInfo wp y0
      some (x, taskbarAdjust monitorInfo wp autoHidden taskbarHeight y)

/-! ## `EnumWindowsProc` (lines 28-95) -/

/-- What one call of `EnumWindowsProc` reads from the operating system. -/
structure Desktop where
  /-- Result of `IsWindowVisible(hWnd)`. -/
  visible : Bool
  /-- Result of `GetWindowPlacement`. -/
  wp : WINDOWPLACEMENT
  /-- Result of `GetMonitorInfo`. -/
  monitorInfo : MONITORINFO
  /-- Result of `SHAppBarMessage(ABM_GETSTATE, ..)`. -/
  appBarState : Nat
  /-- Result of `SystemParametersInfo(SPI_GETWORKAREA, ..)`. -/
  workAreaRect : RECT
  /-- Result of `GetSystemMetrics(SM_CYSCREEN)`. -/
  cyScreen : Int
  deriving DecidableEq, Repr

/-- What one call of `EnumWindowsProc` does to the window. -/
inductive Effect where
  /-- The window is invisible or maximized: nothing is done. -/
  | skipped
  /-- Line 83: `SetWindowPos(hWnd, HWND_TOP, x, y, 0, 0, ..)`. -/
  | setWindowPos (x y : Int)
  deriving DecidableEq, Repr

/-- Lines 28-95: one call of `EnumWindowsProc`, the globals `MAX_MOVE_X`, `MAX_MOVE_Y`
having the values `maxX`, `maxY` and the two calls of `rand()` returning `r1`, `r2`.
`none` is a division fault. -/
def EnumWindowsProc (maxX maxY : Int) (d : Desktop) (r1 r2 : Nat) : Option Effect :=
  if d.visible then
    if d.wp.showCmd ≠ SW_SHOWMAXIMIZED then
      (newPosition maxX maxY d.wp d.monitorInfo (isTaskbarAutoHidden d.appBarState)
        (getTaskbarHeight d.workAreaRect d.cyScreen) r1 r2).map
        fun p => Effect.setWindowPos p.1 p.2
    else some Effect.skipped
  else some Effect.skipped

/-! ## The position calculation over 32-bit wrap-around integers -/

/-- Smallest value of a 32-bit `int`. -/
def INT_MIN : Int := -2147483648

/-- Largest value of a 32-bit `int`. -/
def INT_MAX : Int := 2147483647

/-- Reduction of an integer to the 32-bit two's-complement range. -/
def wrap32 (x : Int) : Int := (x + 2147483648) % 4294967296 - 2147483648

/-- The operator `%` on 32-bit `int`: besides a zero divisor, `INT_MIN % -1` faults. -/
def cRem32 (a b : Int) : Option Int :=
  if b = 0 then none
  else if a = INT_MIN ∧ b = -1 then none
  else some (Int.tmod a b)

/-- Line 48, 32-bit. -/
def screenWidth32 (monitorInfo : MONITORINFO) : Int :=
  wrap32 (monitorInfo.rcMonitor.right - monitorInfo.rcMonitor.left)

/-- Line 49, 32-bit. -/
def screenHeight32 (monitorInfo : MONITORINFO) : Int :=
  wrap32 (monitorInfo.rcMonitor.bottom - monitorInfo.rcMonitor.top)

/-- Line 52, 32-bit. -/
def windowWidth32 (wp : WINDOWPLACEMENT) : Int :=
  wrap32 (wp.rcNormalPosition.right - wp.rcNormalPosition.left)

/-- Line 53, 32-bit. -/
def windowHeight32 (wp : WINDOWPLACEMENT) : Int :=
  wrap32 (wp.rcNormalPosition.bottom - wp.rcNormalPosition.top)

/-- Line 56, 32-bit. -/
def maxMoveX32 (maxX : Int) (monitorInfo : MONITORINFO) (wp : WINDOWPLACEMENT) : Int :=
  min maxX (wrap32 (screenWidth32 monitorInfo - windowWidth32 wp))

/-- Line 57, 32-bit. -/
def maxMoveY32 (maxY : Int) (monitorInfo : MONITORINFO) (wp : WINDOWPLACEMENT) : Int :=
  min maxY (wrap32 (screenHeight32 monitorInfo - windowHeight32 wp))

/-- The divisor of line 60, 32-bit. -/
def modulusX32 (maxX : Int) (monitorInfo : MONITORINFO) (wp : WINDOWPLACEMENT) : Int :=
  wrap32 (wrap32 (2 * maxMoveX32 maxX monitorInfo wp) + 1)

/-- The divisor of line 61, 32-bit. -/
def modulusY32 (maxY : Int) (monitorInfo : MONITORINFO) (wp : WINDOWPLACEMENT) : Int :=
  wrap32 (wrap32 (2 * maxMoveY32 maxY monitorInfo wp) + 1)

/-- Line 60, 32-bit. -/
def randomX32 (maxX : Int) (monitorInfo : MONITORINFO) (wp : WINDOWPLACEMENT) (r : Nat) :
    Option Int :=
  (cRem32 (r : Int) (modulusX32 maxX monitorInfo wp)).map fun rem =>
    wrap32 (wrap32 (wp.rcNormalPosition.left + rem) - maxMoveX32 maxX monitorInfo wp)

/-- Line 61, 32-bit. -/
def randomY32 (maxY : Int) (monitorInfo : MONITORINFO) (wp : WINDOWPLACEMENT) (r : Nat) :
    Option Int :=
  (cRem32 (r : Int) (modulusY32 maxY monitorInfo wp)).map fun rem =>
    wrap32 (wrap32 (wp.rcNormalPosition.top + rem) - maxMoveY32 maxY monitorInfo wp)

/-- Line 64, 32-bit. -/
def clampX32 (monitorInfo : MONITORINFO) (wp : WINDOWPLACEMENT) (randomX : Int) : Int :=
  max monitorInfo.rcMonitor.left
    (min randomX (wrap32 (monitorInfo.rcMonitor.right - windowWidth32 wp)))

/-- Line 65, 32-bit. -/
def clampY32 (monitorInfo : MONITORINFO) (wp : WINDOWPLACEMENT) (randomY : Int) : Int :=
  max monitorInfo.rcMonitor.top
    (min randomY (wrap32 (monitorInfo.rcMonitor.bottom - windowHeight32 wp)))

/-- Lines 68-77, 32-bit. -/
def taskbarAdjust32 (monitorInfo : MONITORINFO) (wp : WINDOWPLACEMENT)
    (autoHidden : Bool) (taskbarHeight : Int) (randomY : Int) : Int :=
  if autoHidden then
    max randomY (wrap32 (monitorInfo.rcMonitor.top + taskbarHeight))
  else
    min randomY
      (wrap32 (wrap32 (monitorInfo.rcMonitor.bottom - windowHeight32 wp) - taskbarHeight))

/-- Lines 47-77, 32-bit. -/
def newPosition32 (maxX maxY : Int) (wp : WINDOWPLACEMENT) (monitorInfo : MONITORINFO)
    (autoHidden : Bool) (taskbarHeight : Int) (r1 r2 : Nat) : Option (Int × Int) :=
  match randomX32 maxX monitorInfo wp r1 with
  | none => none
  | some x0 =>
    match randomY32 maxY monitorInfo wp r2 with
    | none => none
    | some y0 =>
      let x := clampX32 monitorInfo wp x0
      let y := clampY32 monitorInfo wp y0
      some (x, taskbarAdjust32 monitorInfo wp autoHidden taskbarHeight y)

/-- A value is representable as a 32-bit `int`. -/
def InRange32 (x : Int) : Prop := INT_MIN ≤ x ∧ x ≤ INT_MAX

/-- Every coordinate of the rectangle has absolute value at most 2^27. -/
def SmallRect (rc : RECT) : Prop :=
  (-134217728 ≤ rc.left ∧ rc.left ≤ 134217728) ∧
  (-134217728 ≤ rc.top ∧ rc.top ≤ 134217728) ∧
  (-134217728 ≤ rc.right ∧ rc.right ≤ 134217728) ∧
  (-134217728 ≤ rc.bottom ∧ rc.bottom ≤ 134217728)

instance (rc : RECT) : Decidable (SmallRect rc) := by
  unfold SmallRect; infer_instance

instance (x : Int) : Decidable (InRange32 x) := by
  unfold InRange32; infer_instance

/-! ## Concrete inputs -/

/-- A 1920x1080 monitor at the origin. -/
def fullHD : MONITORINFO := ⟨⟨0, 0, 1920, 1080⟩⟩

/-- The 200x100 window at (100,100) of the end-to-end scenario, in the restored state
(`showCmd = SW_SHOWNORMAL`). -/
def scenarioWindow : WINDOWPLACEMENT := ⟨1, ⟨100, 100, 300, 200⟩⟩

/-- The end-to-end scenario: `scenarioWindow` visible on `fullHD`, taskbar always
visible (`appBarState = 0`) and 40 pixels high (work area 1920x1040 of a 1080 screen). -/
def scenarioDesktop : Desktop :=
  { visible := true, wp := scenarioWindow, monitorInfo := fullHD, appBarState := 0,
    workAreaRect := ⟨0, 0, 1920, 1040⟩, cyScreen := 1080 }

/-- A 200x1060 window at (100,10): inside `fullHD` and smaller than it. -/
def tallWindow : WINDOWPLACEMENT := ⟨1, ⟨100, 10, 300, 1070⟩⟩

/-- A 200x100 window at (1800,100): it sticks out of `fullHD` on the right. -/
def edgeWindow : WINDOWPLACEMENT := ⟨1, ⟨1800, 100, 2000, 200⟩⟩

/-- A 2000x100 window at (-40,0): wider than `fullHD`. -/
def wideWindow : WINDOWPLACEMENT := ⟨1, ⟨-40, 0, 1960, 100⟩⟩

/-- A 1920x100 window at (0,300): exactly as wide as `fullHD`. -/
def fullWidthWindow : WINDOWPLACEMENT := ⟨1, ⟨0, 300, 1920, 400⟩⟩

/-! ## Arithmetic lemmas -/

theorem min_eq (a b : Int) : min a b = Min.min a b := by
  unfold min; split_ifs <;> omega

theorem max_eq (a b : Int) : max a b = Max.max a b := by
  unfold max; split_ifs <;> omega

theorem tmod_natCast (r : Nat) (b : Int) : Int.tmod (r : Int) b = (r : Int) % b := by
  rcases Int.le_total 0 b with hb | hb
  · exact Int.tmod_eq_emod (Int.ofNat_nonneg r) hb
  · have h := Int.tmod_eq_emod (Int.ofNat_nonneg r) (Int.neg_nonneg.mpr hb)
    rw [Int.tmod_neg, Int.emod_neg] at h
    exact h

/-- For a non-negative radius `m`, the remainder `r % (2*m+1)` lies in `[0, 2*m]`. -/
theorem rem_bounds (r : Nat) (m : Int) (hm : 0 ≤ m) :
    0 ≤ Int.tmod (r : Int) (2 * m + 1) ∧ Int.tmod (r : Int) (2 * m + 1) ≤ 2 * m := by
  rw [tmod_natCast]
  have h1 := Int.emod_nonneg (r : Int) (show (2 * m + 1) ≠ 0 by omega)
  have h2 := Int.emod_lt_of_pos (r : Int) (show 0 < 2 * m + 1 by omega)
  omega

theorem wrap32_odd (x : Int) : wrap32 (wrap32 (2 * x) + 1) % 2 = 1 := by
  unfold wrap32; omega

theorem wrap32_id (x : Int) (h : InRange32 x) : wrap32 x = x := by
  unfold InRange32 INT_MIN INT_MAX at h; unfold wrap32; omega


/-! ## Structure of the result -/

theorem modulusX_ne_zero (maxX : Int) (mi : MONITORINFO) (wp : WINDOWPLACEMENT) :
    modulusX maxX mi wp ≠ 0 := by
  unfold modulusX; omega

theorem modulusY_ne_zero (maxY : Int) (mi : MONITORINFO) (wp : WINDOWPLACEMENT) :
    modulusY maxY mi wp ≠ 0 := by
  unfold modulusY; omega

theorem randomX_eq (maxX : Int) (mi : MONITORINFO) (wp : WINDOWPLACEMENT) (r : Nat) :
    randomX maxX mi wp r
      = some (wp.rcNormalPosition.left + Int.tmod (r : Int) (2 * maxMoveX maxX mi wp + 1)
          - maxMoveX maxX mi wp) := by
  have h := modulusX_ne_zero maxX mi wp
  simp only [randomX, cRem, if_neg h, Option.map_some']
  rfl

theorem randomY_eq (maxY : Int) (mi : MONITORINFO) (wp : WINDOWPLACEMENT) (r : Nat) :
    randomY maxY mi wp r
      = some (wp.rcNormalPosition.top + Int.tmod (r : Int) (2 * maxMoveY maxY mi wp + 1)
          - maxMoveY maxY mi wp) := by
  have h := modulusY_ne_zero maxY mi wp
  simp only [randomY, cRem, if_neg h, Option.map_some']
  rfl

/-- The position calculation never faults, and its result is the composition of the
perturbation, the monitor clamp and the taskbar correction. -/
theorem newPosition_eq (maxX maxY : Int) (wp : WINDOWPLACEMENT) (mi : MONITORINFO)
    (ah : Bool) (H : Int) (r1 r2 : Nat) :
    newPosition maxX maxY wp mi ah H r1 r2
      = some
          (clampX mi wp (wp.rcNormalPosition.left
              + Int.tmod (r1 : Int) (2 * maxMoveX maxX mi wp + 1) - maxMoveX maxX mi wp),
           taskbarAdjust mi wp ah H (clampY mi wp (wp.rcNormalPosition.top
              + Int.tmod (r2 : Int) (2 * maxMoveY maxY mi wp + 1) - maxMoveY maxY mi wp))) := by
  simp only [newPosition, randomX_eq, randomY_eq]

/-! ## Clamp lemmas -/

theorem clampX_mem (mi : MONITORINFO) (wp : WINDOWPLACEMENT) (x0 : Int)
    (hw : windowWidth wp ≤ screenWidth mi) :
    mi.rcMonitor.left ≤ clampX mi wp x0 ∧
      clampX mi wp x0 ≤ mi.rcMonitor.right - windowWidth wp := by
  unfold screenWidth at hw
  simp only [clampX, min_eq, max_eq]
  omega

theorem clampY_mem (mi : MONITORINFO) (wp : WINDOWPLACEMENT) (y0 : Int)
    (hh : windowHeight wp ≤ screenHeight mi) :
    mi.rcMonitor.top ≤ clampY mi wp y0 ∧
      clampY mi wp y0 ≤ mi.rcMonitor.bottom - windowHeight wp := by
  unfold screenHeight at hh
  simp only [clampY, min_eq, max_eq]
  omega

/-! ## C1: containment -/

/-- C1, refuted as stated: `tallWindow` lies inside `fullHD` and is smaller than it, the
taskbar is always visible and 40 pixels high, both draws are 0; the computed position
is `(50, -20)`, above the top edge of the monitor. -/
theorem C1_counterexample :
    (fullHD.rcMonitor.left ≤ tallWindow.rcNormalPosition.left ∧
      fullHD.rcMonitor.top ≤ tallWindow.rcNormalPosition.top ∧
      tallWindow.rcNormalPosition.right ≤ fullHD.rcMonitor.right ∧
      tallWindow.rcNormalPosition.bottom ≤ fullHD.rcMonitor.bottom ∧
      windowWidth tallWindow < screenWidth fullHD ∧
      windowHeight tallWindow < screenHeight fullHD) ∧
    newPosition MAX_MOVE_X MAX_MOVE_Y tallWindow fullHD false 40 0 0 = some (50, -20) ∧
    ¬ (fullHD.rcMonitor.top ≤ (-20 : Int)) := by
  decide

/-- C1, amended: for a window inside the monitor and smaller than it, for every taskbar
state and every pair of draws, the calculation returns a position `(x, y)` with
`monitorLeft ≤ x ≤ monitorRight - windowWidth`; and `y` satisfies
`monitorTop ≤ y ≤ monitorBottom - windowHeight` exactly when
`windowHeight + H ≤ monitorHeight`. -/
theorem C1_containment (maxX maxY : Int) (wp : WINDOWPLACEMENT) (mi : MONITORINFO)
    (ah : Bool) (H : Int) (r1 r2 : Nat)
    (_hl : mi.rcMonitor.left ≤ wp.rcNormalPosition.left)
    (_ht : mi.rcMonitor.top ≤ wp.rcNormalPosition.top)
    (_hr : wp.rcNormalPosition.right ≤ mi.rcMonitor.right)
    (_hb : wp.rcNormalPosition.bottom ≤ mi.rcMonitor.bottom)
    (hw : windowWidth wp < screenWidth mi)
    (hh : windowHeight wp < screenHeight mi) :
    ∃ x y : Int, newPosition maxX maxY wp mi ah H r1 r2 = some (x, y) ∧
      (mi.rcMonitor.left ≤ x ∧ x ≤ mi.rcMonitor.right - windowWidth wp) ∧
      ((mi.rcMonitor.top ≤ y ∧ y ≤ mi.rcMonitor.bottom - windowHeight wp)
        ↔ windowHeight wp + H ≤ screenHeight mi) := by
  refine ⟨_, _, newPosition_eq maxX maxY wp mi ah H r1 r2, ?_, ?_⟩
  · exact clampX_mem mi wp _ (Int.le_of_lt hw)
  · have hc := clampY_mem mi wp (wp.rcNormalPosition.top
      + Int.tmod (r2 : Int) (2 * maxMoveY maxY mi wp + 1) - maxMoveY maxY mi wp)
      (Int.le_of_lt hh)
    generalize clampY mi wp _ = y at hc ⊢
    unfold screenHeight at hh ⊢
    cases ah <;> simp only [taskbarAdjust, min_eq, max_eq, if_true, if_false,
      Bool.false_eq_true] <;> omega

/-- C1, amended, at a concrete input: `scenarioWindow` on `fullHD`, taskbar 40 high. -/
theorem C1_containment_witness :
    ∃ x y : Int, newPosition MAX_MOVE_X MAX_MOVE_Y scenarioWindow fullHD false 40 7 200
        = some (x, y) ∧
      (fullHD.rcMonitor.left ≤ x ∧ x ≤ fullHD.rcMonitor.right - windowWidth scenarioWindow) ∧
      ((fullHD.rcMonitor.top ≤ y ∧ y ≤ fullHD.rcMonitor.bottom - windowHeight scenarioWindow)
        ↔ windowHeight scenarioWindow + 40 ≤ screenHeight fullHD) :=
  C1_containment MAX_MOVE_X MAX_MOVE_Y scenarioWindow fullHD false 40 7 200
    (by decide) (by decide) (by decide) (by decide) (by decide) (by decide)

/-! ## Displacement lemmas -/

/-- Line 60 moves the X coordinate by at most the radius, when the radius is not negative. -/
theorem perturbX_bound (maxX : Int) (mi : MONITORINFO) (wp : WINDOWPLACEMENT) (r : Nat)
    (hm : 0 ≤ maxMoveX maxX mi wp) :
    |wp.rcNormalPosition.left + Int.tmod (r : Int) (2 * maxMoveX maxX mi wp + 1)
        - maxMoveX maxX mi wp - wp.rcNormalPosition.left| ≤ maxMoveX maxX mi wp := by
  have h := rem_bounds r (maxMoveX maxX mi wp) hm
  rw [abs_le]; omega

/-- Line 61 moves the Y coordinate by at most the radius, when the radius is not negative. -/
theorem perturbY_bound (maxY : Int) (mi : MONITORINFO) (wp : WINDOWPLACEMENT) (r : Nat)
    (hm : 0 ≤ maxMoveY maxY mi wp) :
    |wp.rcNormalPosition.top + Int.tmod (r : Int) (2 * maxMoveY maxY mi wp + 1)
        - maxMoveY maxY mi wp - wp.rcNormalPosition.top| ≤ maxMoveY maxY mi wp := by
  have h := rem_bounds r (maxMoveY maxY mi wp) hm
  rw [abs_le]; omega

/-- The monitor clamp of line 64 does not move `x0` away from an original X coordinate
that fits the monitor. -/
theorem clampX_closer (mi : MONITORINFO) (wp : WINDOWPLACEMENT) (x0 : Int)
    (hl : mi.rcMonitor.left ≤ wp.rcNormalPosition.left)
    (hr : wp.rcNormalPosition.right ≤ mi.rcMonitor.right) :
    |clampX mi wp x0 - wp.rcNormalPosition.left| ≤ |x0 - wp.rcNormalPosition.left| := by
  simp only [clampX, windowWidth, min_eq, max_eq]
  rw [abs_le]
  rcases abs_cases (x0 - wp.rcNormalPosition.left) with h | h <;> omega

/-- The monitor clamp of line 65 followed by the taskbar correction does not move `y0`
away from an original Y coordinate that fits the monitor and the taskbar constraint of
the active mode. -/
theorem clampY_taskbar_closer (mi : MONITORINFO) (wp : WINDOWPLACEMENT) (ah : Bool)
    (H y0 : Int)
    (ht : mi.rcMonitor.top ≤ wp.rcNormalPosition.top)
    (hb : wp.rcNormalPosition.bottom ≤ mi.rcMonitor.bottom)
    (hhid : ah = true → mi.rcMonitor.top + H ≤ wp.rcNormalPosition.top)
    (hvis : ah = false → wp.rcNormalPosition.bottom ≤ mi.rcMonitor.bottom - H) :
    |taskbarAdjust mi wp ah H (clampY mi wp y0) - wp.rcNormalPosition.top|
      ≤ |y0 - wp.rcNormalPosition.top| := by
  rw [abs_le]
  cases ah
  · have hv := hvis rfl
    simp only [taskbarAdjust, clampY, windowHeight, min_eq, max_eq, if_false,
      Bool.false_eq_true]
    rcases abs_cases (y0 - wp.rcNormalPosition.top) with h | h <;> omega
  · have hv := hhid rfl
    simp only [taskbarAdjust, clampY, windowHeight, min_eq, max_eq, if_true]
    rcases abs_cases (y0 - wp.rcNormalPosition.top) with h | h <;> omega

/-- A window that fits the monitor has a non-negative X radius, for `MAX_MOVE_X ≥ 0`. -/
theorem maxMoveX_nonneg (maxX : Int) (mi : MONITORINFO) (wp : WINDOWPLACEMENT)
    (h0 : 0 ≤ maxX) (hw : windowWidth wp ≤ screenWidth mi) : 0 ≤ maxMoveX maxX mi wp := by
  simp only [maxMoveX, min_eq]; omega

/-- A window that fits the monitor has a non-negative Y radius, for `MAX_MOVE_Y ≥ 0`. -/
theorem maxMoveY_nonneg (maxY : Int) (mi : MONITORINFO) (wp : WINDOWPLACEMENT)
    (h0 : 0 ≤ maxY) (hh : windowHeight wp ≤ screenHeight mi) : 0 ≤ maxMoveY maxY mi wp := by
  simp only [maxMoveY, min_eq]; omega

/-- For `MAX_MOVE_X ≥ 0` the X radius is not negative exactly when the window is not
wider than the monitor. -/
theorem maxMoveX_nonneg_iff (maxX : Int) (mi : MONITORINFO) (wp : WINDOWPLACEMENT)
    (h0 : 0 ≤ maxX) : 0 ≤ maxMoveX maxX mi wp ↔ windowWidth wp ≤ screenWidth mi := by
  simp only [maxMoveX, min_eq]; omega

/-! ## C2: displacement bound -/

/-- C2, refuted as stated: `edgeWindow` sticks out of `fullHD` on the right; with both
draws 0 the computed position is `(1720, 50)`, 80 pixels left of the original 1800,
while the bound `min(MAX_MOVE_X, monitorWidth - windowWidth)` is 50. -/
theorem C2_counterexample :
    newPosition MAX_MOVE_X MAX_MOVE_Y edgeWindow fullHD false 40 0 0 = some (1720, 50) ∧
    min MAX_MOVE_X (screenWidth fullHD - windowWidth edgeWindow) = 50 ∧
    ¬ (|(1720 : Int) - edgeWindow.rcNormalPosition.left|
        ≤ min MAX_MOVE_X (screenWidth fullHD - windowWidth edgeWindow)) := by
  decide

/-- C2, amended: when `MAX_MOVE_X, MAX_MOVE_Y ≥ 0` and the original position already
satisfies what the clamps enforce (the window lies inside the monitor, and its top is
at or below `monitorTop + H` when the taskbar is auto-hidden, its bottom at or above
`monitorBottom - H` when it is not), then for every pair of draws the calculation
returns a position `(x, y)` with `|x - left| ≤ min(MAX_MOVE_X, monitorWidth - windowWidth)`
and `|y - top| ≤ min(MAX_MOVE_Y, monitorHeight - windowHeight)`. -/
theorem C2_displacement (maxX maxY : Int) (wp : WINDOWPLACEMENT) (mi : MONITORINFO)
    (ah : Bool) (H : Int) (r1 r2 : Nat)
    (hX : 0 ≤ maxX) (hY : 0 ≤ maxY)
    (hl : mi.rcMonitor.left ≤ wp.rcNormalPosition.left)
    (hr : wp.rcNormalPosition.right ≤ mi.rcMonitor.right)
    (ht : mi.rcMonitor.top ≤ wp.rcNormalPosition.top)
    (hb : wp.rcNormalPosition.bottom ≤ mi.rcMonitor.bottom)
    (hhid : ah = true → mi.rcMonitor.top + H ≤ wp.rcNormalPosition.top)
    (hvis : ah = false → wp.rcNormalPosition.bottom ≤ mi.rcMonitor.bottom - H) :
    ∃ x y : Int, newPosition maxX maxY wp mi ah H r1 r2 = some (x, y) ∧
      |x - wp.rcNormalPosition.left| ≤ min maxX (screenWidth mi - windowWidth wp) ∧
      |y - wp.rcNormalPosition.top| ≤ min maxY (screenHeight mi - windowHeight wp) := by
  have hmx : 0 ≤ maxMoveX maxX mi wp :=
    maxMoveX_nonneg maxX mi wp hX (by unfold windowWidth screenWidth; omega)
  have hmy : 0 ≤ maxMoveY maxY mi wp :=
    maxMoveY_nonneg maxY mi wp hY (by unfold windowHeight screenHeight; omega)
  refine ⟨_, _, newPosition_eq maxX maxY wp mi ah H r1 r2, ?_, ?_⟩
  · exact Int.le_trans (clampX_closer mi wp _ hl hr) (perturbX_bound maxX mi wp r1 hmx)
  · exact Int.le_trans (clampY_taskbar_closer mi wp ah H _ ht hb hhid hvis)
      (perturbY_bound maxY mi wp r2 hmy)

/-- C2, amended, at a concrete input: `scenarioWindow` on `fullHD`, taskbar 40 high. -/
theorem C2_displacement_witness :
    ∃ x y : Int, newPosition MAX_MOVE_X MAX_MOVE_Y scenarioWindow fullHD false 40 7 200
        = some (x, y) ∧
      |x - scenarioWindow.rcNormalPosition.left|
        ≤ min MAX_MOVE_X (screenWidth fullHD - windowWidth scenarioWindow) ∧
      |y - scenarioWindow.rcNormalPosition.top|
        ≤ min MAX_MOVE_Y (screenHeight fullHD - windowHeight scenarioWindow) :=
  C2_displacement MAX_MOVE_X MAX_MOVE_Y scenarioWindow fullHD false 40 7 200
    (by decide) (by decide) (by decide) (by decide) (by decide) (by decide)
    (by decide) (by decide)

/-! ## C3: the movement radius -/

/-- C3, refuted as stated: `wideWindow` is wider than `fullHD`; its X radius is
`min(50, 1920 - 2000) = -80`, a negative number, and with the draw 0 line 60 adds the
offset 80 to the original X coordinate. -/
theorem C3_counterexample :
    screenWidth fullHD ≤ windowWidth wideWindow ∧
    maxMoveX MAX_MOVE_X fullHD wideWindow = -80 ∧
    ¬ (0 ≤ maxMoveX MAX_MOVE_X fullHD wideWindow) ∧
    randomX MAX_MOVE_X fullHD wideWindow 0
      = some (wideWindow.rcNormalPosition.left + 80) := by
  decide

/-- C3, amended: for `MAX_MOVE_X, MAX_MOVE_Y ≥ 0` the radius of an axis is not negative
exactly when the window is not larger than the monitor on that axis (there is no clamp
to zero: for a larger window the radius is negative); when the window is exactly as
large as the monitor on an axis, the radius is zero and the offset added by line 60
(line 61) is 0 for every draw. -/
theorem C3_radius (maxX maxY : Int) (wp : WINDOWPLACEMENT) (mi : MONITORINFO)
    (hX : 0 ≤ maxX) (hY : 0 ≤ maxY) :
    (0 ≤ maxMoveX maxX mi wp ↔ windowWidth wp ≤ screenWidth mi) ∧
    (0 ≤ maxMoveY maxY mi wp ↔ windowHeight wp ≤ screenHeight mi) ∧
    (windowWidth wp = screenWidth mi →
      maxMoveX maxX mi wp = 0 ∧
      ∀ r : Nat, randomX maxX mi wp r = some wp.rcNormalPosition.left) ∧
    (windowHeight wp = screenHeight mi →
      maxMoveY maxY mi wp = 0 ∧
      ∀ r : Nat, randomY maxY mi wp r = some wp.rcNormalPosition.top) := by
  refine ⟨?_, ?_, ?_, ?_⟩
  · simp only [maxMoveX, min_eq]; omega
  · simp only [maxMoveY, min_eq]; omega
  · intro hw
    have hm : maxMoveX maxX mi wp = 0 := by simp only [maxMoveX, min_eq]; omega
    refine ⟨hm, fun r => ?_⟩
    have hb := rem_bounds r (maxMoveX maxX mi wp) (by omega)
    rw [randomX_eq]
    congr 1
    omega
  · intro hh
    have hm : maxMoveY maxY mi wp = 0 := by simp only [maxMoveY, min_eq]; omega
    refine ⟨hm, fun r => ?_⟩
    have hb := rem_bounds r (maxMoveY maxY mi wp) (by omega)
    rw [randomY_eq]
    congr 1
    omega

/-- C3, amended, at a concrete input: `fullWidthWindow` is exactly as wide as `fullHD`
and less high; its X radius is zero and line 60 returns the original X coordinate. -/
theorem C3_radius_witness :
    0 ≤ maxMoveX MAX_MOVE_X fullHD fullWidthWindow ∧
    0 ≤ maxMoveY MAX_MOVE_Y fullHD fullWidthWindow ∧
    maxMoveX MAX_MOVE_X fullHD fullWidthWindow = 0 ∧
    ∀ r : Nat, randomX MAX_MOVE_X fullHD fullWidthWindow r
      = some fullWidthWindow.rcNormalPosition.left :=
  have h := C3_radius MAX_MOVE_X MAX_MOVE_Y fullWidthWindow fullHD (by decide) (by decide)
  ⟨h.1.mpr (by decide), h.2.1.mpr (by decide), (h.2.2.1 (by decide)).1,
    (h.2.2.1 (by decide)).2⟩

/-! ## C4: a window at least as wide as the monitor -/

/-- C4: when `windowWidth ≥ monitorWidth` and `MAX_MOVE_X ≥ 0`, for every draw the
calculation returns a position whose X coordinate is the monitor-clamped original,
`max(monitorLeft, min(left, monitorRight - windowWidth))`. -/
theorem C4_oversized_x (maxX maxY : Int) (wp : WINDOWPLACEMENT) (mi : MONITORINFO)
    (ah : Bool) (H : Int) (r1 r2 : Nat)
    (hX : 0 ≤ maxX) (hw : screenWidth mi ≤ windowWidth wp) :
    ∃ x y : Int, newPosition maxX maxY wp mi ah H r1 r2 = some (x, y) ∧
      x = max mi.rcMonitor.left
            (min wp.rcNormalPosition.left (mi.rcMonitor.right - windowWidth wp)) := by
  refine ⟨_, _, newPosition_eq maxX maxY wp mi ah H r1 r2, ?_⟩
  by_cases hm : 0 ≤ maxMoveX maxX mi wp
  · have hb := rem_bounds r1 (maxMoveX maxX mi wp) hm
    have hm0 : maxMoveX maxX mi wp = 0 := by
      have : maxMoveX maxX mi wp ≤ 0 := by simp only [maxMoveX, min_eq]; omega
      omega
    have hx0 : wp.rcNormalPosition.left
        + Int.tmod (r1 : Int) (2 * maxMoveX maxX mi wp + 1) - maxMoveX maxX mi wp
        = wp.rcNormalPosition.left := by omega
    rw [hx0]; rfl
  · have hlt : screenWidth mi < windowWidth wp := by
      have := (maxMoveX_nonneg_iff maxX mi wp hX).not.mp hm
      omega
    generalize wp.rcNormalPosition.left
        + Int.tmod (r1 : Int) (2 * maxMoveX maxX mi wp + 1) - maxMoveX maxX mi wp = x0
    unfold screenWidth at hlt
    simp only [clampX, min_eq, max_eq]
    omega

/-- C4 at a concrete input: `wideWindow` on `fullHD`. -/
theorem C4_oversized_x_witness :
    ∃ x y : Int, newPosition MAX_MOVE_X MAX_MOVE_Y wideWindow fullHD false 40 7 200
        = some (x, y) ∧
      x = max fullHD.rcMonitor.left
            (min wideWindow.rcNormalPosition.left
              (fullHD.rcMonitor.right - windowWidth wideWindow)) :=
  C4_oversized_x MAX_MOVE_X MAX_MOVE_Y wideWindow fullHD false 40 7 200
    (by decide) (by decide)

/-! ## C5: the taskbar correction is applied last -/

/-- C5: for every input and every pair of draws the calculation returns a position
whose Y coordinate satisfies the taskbar constraint of the active mode:
`y ≥ monitorTop + H` when the taskbar is auto-hidden, and
`y ≤ monitorBottom - windowHeight - H` when it is not. -/
theorem C5_taskbar_wins (maxX maxY : Int) (wp : WINDOWPLACEMENT) (mi : MONITORINFO)
    (H : Int) (r1 r2 : Nat) :
    (∃ x y : Int, newPosition maxX maxY wp mi true H r1 r2 = some (x, y) ∧
      mi.rcMonitor.top + H ≤ y) ∧
    (∃ x y : Int, newPosition maxX maxY wp mi false H r1 r2 = some (x, y) ∧
      y ≤ mi.rcMonitor.bottom - windowHeight wp - H) := by
  constructor
  · refine ⟨_, _, newPosition_eq maxX maxY wp mi true H r1 r2, ?_⟩
    simp only [taskbarAdjust, max_eq, if_true]
    omega
  · refine ⟨_, _, newPosition_eq maxX maxY wp mi false H r1 r2, ?_⟩
    simp only [taskbarAdjust, min_eq, if_false, Bool.false_eq_true]
    omega

/-! ## C6: the end-to-end scenario -/

/-- C6: on `scenarioDesktop` (monitor (0,0)-(1920,1080), window (100,100)-(300,200),
taskbar always visible and 40 pixels high) with `MAX_MOVE_X = MAX_MOVE_Y = 50`, for
every pair of draws `EnumWindowsProc` calls `SetWindowPos` with a position `(x, y)`
such that `50 ≤ x ≤ 150`, `50 ≤ y ≤ 940` and `y ≤ 1080 - 100 - 40`. -/
theorem C6_scenario (r1 r2 : Nat) :
    ∃ x y : Int,
      EnumWindowsProc MAX_MOVE_X MAX_MOVE_Y scenarioDesktop r1 r2
        = some (Effect.setWindowPos x y) ∧
      50 ≤ x ∧ x ≤ 150 ∧ 50 ≤ y ∧ y ≤ 940 ∧ y ≤ 1080 - 100 - 40 := by
  have hmx : maxMoveX MAX_MOVE_X fullHD scenarioWindow = 50 := by decide
  have hmy : maxMoveY MAX_MOVE_Y fullHD scenarioWindow = 50 := by decide
  have hbx := rem_bounds r1 50 (by decide)
  have hby := rem_bounds r2 50 (by decide)
  have hE : EnumWindowsProc MAX_MOVE_X MAX_MOVE_Y scenarioDesktop r1 r2
      = (newPosition MAX_MOVE_X MAX_MOVE_Y scenarioWindow fullHD false 40 r1 r2).map
          fun p => Effect.setWindowPos p.1 p.2 := rfl
  rw [hE, newPosition_eq, hmx, hmy]
  refine ⟨_, _, rfl, ?_⟩
  simp only [taskbarAdjust, clampX, clampY, windowWidth, windowHeight, fullHD,
    scenarioWindow, min_eq, max_eq, if_false, Bool.false_eq_true]
  omega

/-! ## C7: the range of the random offset -/

/-- Every offset in `[-m, m]` is hit by the draw `k + m`, which lies in `[0, 2*m]`. -/
theorem rem_cover (m k : Int) (h1 : -m ≤ k) (h2 : k ≤ m) :
    ∃ r : Nat, (r : Int) ≤ 2 * m ∧ Int.tmod (r : Int) (2 * m + 1) - m = k := by
  refine ⟨(k + m).toNat, ?_, ?_⟩
  · rw [Int.toNat_of_nonneg (by omega)]; omega
  · rw [tmod_natCast, Int.toNat_of_nonneg (by omega),
      Int.emod_eq_of_lt (by omega) (by omega)]
    omega

/-- C7: on each axis, when the radius `maxMove = min(MAX_MOVE, monitorDim - windowDim)`
is not negative, for every draw `r` line 60 (line 61) returns the original coordinate
plus an offset in `[-maxMove, maxMove]`, and every integer `k` of `[-maxMove, maxMove]`
is the offset of some draw `r` in `[0, 2*maxMove]`. -/
theorem C7_offset_range (maxX maxY : Int) (wp : WINDOWPLACEMENT) (mi : MONITORINFO) :
    (0 ≤ maxMoveX maxX mi wp →
      (∀ r : Nat, ∃ off : Int,
        randomX maxX mi wp r = some (wp.rcNormalPosition.left + off) ∧
        off = Int.tmod (r : Int) (2 * maxMoveX maxX mi wp + 1) - maxMoveX maxX mi wp ∧
        -maxMoveX maxX mi wp ≤ off ∧ off ≤ maxMoveX maxX mi wp) ∧
      (∀ k : Int, -maxMoveX maxX mi wp ≤ k → k ≤ maxMoveX maxX mi wp →
        ∃ r : Nat, (r : Int) ≤ 2 * maxMoveX maxX mi wp ∧
          randomX maxX mi wp r = some (wp.rcNormalPosition.left + k))) ∧
    (0 ≤ maxMoveY maxY mi wp →
      (∀ r : Nat, ∃ off : Int,
        randomY maxY mi wp r = some (wp.rcNormalPosition.top + off) ∧
        off = Int.tmod (r : Int) (2 * maxMoveY maxY mi wp + 1) - maxMoveY maxY mi wp ∧
        -maxMoveY maxY mi wp ≤ off ∧ off ≤ maxMoveY maxY mi wp) ∧
      (∀ k : Int, -maxMoveY maxY mi wp ≤ k → k ≤ maxMoveY maxY mi wp →
        ∃ r : Nat, (r : Int) ≤ 2 * maxMoveY maxY mi wp ∧
          randomY maxY mi wp r = some (wp.rcNormalPosition.top + k))) := by
  constructor
  · intro hm
    constructor
    · intro r
      have hb := rem_bounds r (maxMoveX maxX mi wp) hm
      refine ⟨_, ?_, rfl, by omega, by omega⟩
      rw [randomX_eq]; congr 1; omega
    · intro k h1 h2
      obtain ⟨r, hr, hk⟩ := rem_cover (maxMoveX maxX mi wp) k h1 h2
      refine ⟨r, hr, ?_⟩
      rw [randomX_eq]; congr 1; omega
  · intro hm
    constructor
    · intro r
      have hb := rem_bounds r (maxMoveY maxY mi wp) hm
      refine ⟨_, ?_, rfl, by omega, by omega⟩
      rw [randomY_eq]; congr 1; omega
    · intro k h1 h2
      obtain ⟨r, hr, hk⟩ := rem_cover (maxMoveY maxY mi wp) k h1 h2
      refine ⟨r, hr, ?_⟩
      rw [randomY_eq]; congr 1; omega

/-- C7 at a concrete input: `scenarioWindow` on `fullHD` has radius 50 on both axes;
the draw 200 gives an X offset in `[-50, 50]`, and the Y offset `-50` is hit by a draw
in `[0, 100]`. -/
theorem C7_offset_range_witness :
    (∃ off : Int,
      randomX MAX_MOVE_X fullHD scenarioWindow 200
        = some (scenarioWindow.rcNormalPosition.left + off) ∧
      off = Int.tmod ((200 : Nat) : Int) (2 * maxMoveX MAX_MOVE_X fullHD scenarioWindow + 1)
        - maxMoveX MAX_MOVE_X fullHD scenarioWindow ∧
      -maxMoveX MAX_MOVE_X fullHD scenarioWindow ≤ off ∧
      off ≤ maxMoveX MAX_MOVE_X fullHD scenarioWindow) ∧
    (∃ r : Nat, (r : Int) ≤ 2 * maxMoveY MAX_MOVE_Y fullHD scenarioWindow ∧
      randomY MAX_MOVE_Y fullHD scenarioWindow r
        = some (scenarioWindow.rcNormalPosition.top + (-50))) :=
  have h := C7_offset_range MAX_MOVE_X MAX_MOVE_Y scenarioWindow fullHD
  ⟨(h.1 (by decide)).1 200, (h.2 (by decide)).2 (-50) (by decide) (by decide)⟩

/-! ## C8: the divisor is never zero -/

theorem modulusX32_odd (maxX : Int) (mi : MONITORINFO) (wp : WINDOWPLACEMENT) :
    modulusX32 maxX mi wp % 2 = 1 :=
  wrap32_odd (maxMoveX32 maxX mi wp)

theorem modulusY32_odd (maxY : Int) (mi : MONITORINFO) (wp : WINDOWPLACEMENT) :
    modulusY32 maxY mi wp % 2 = 1 :=
  wrap32_odd (maxMoveY32 maxY mi wp)

/-- With an odd divisor and a draw of `rand()`, the 32-bit `%` does not fault. -/
theorem cRem32_natCast (r : Nat) (b : Int) (hb : b % 2 = 1) :
    cRem32 (r : Int) b = some (Int.tmod (r : Int) b) := by
  have h0 : b ≠ 0 := by omega
  have h1 : ¬ ((r : Int) = INT_MIN ∧ b = -1) := by unfold INT_MIN; omega
  simp only [cRem32, if_neg h0, if_neg h1]

theorem randomX32_eq (maxX : Int) (mi : MONITORINFO) (wp : WINDOWPLACEMENT) (r : Nat) :
    randomX32 maxX mi wp r
      = some (wrap32 (wrap32 (wp.rcNormalPosition.left
          + Int.tmod (r : Int) (modulusX32 maxX mi wp)) - maxMoveX32 maxX mi wp)) := by
  unfold randomX32
  rw [cRem32_natCast r (modulusX32 maxX mi wp) (modulusX32_odd maxX mi wp)]
  rfl

theorem randomY32_eq (maxY : Int) (mi : MONITORINFO) (wp : WINDOWPLACEMENT) (r : Nat) :
    randomY32 maxY mi wp r
      = some (wrap32 (wrap32 (wp.rcNormalPosition.top
          + Int.tmod (r : Int) (modulusY32 maxY mi wp)) - maxMoveY32 maxY mi wp)) := by
  unfold randomY32
  rw [cRem32_natCast r (modulusY32 maxY mi wp) (modulusY32_odd maxY mi wp)]
  rfl

/-- The 32-bit position calculation never faults either. -/
theorem newPosition32_eq (maxX maxY : Int) (wp : WINDOWPLACEMENT) (mi : MONITORINFO)
    (ah : Bool) (H : Int) (r1 r2 : Nat) :
    newPosition32 maxX maxY wp mi ah H r1 r2
      = some
          (clampX32 mi wp (wrap32 (wrap32 (wp.rcNormalPosition.left
              + Int.tmod (r1 : Int) (modulusX32 maxX mi wp)) - maxMoveX32 maxX mi wp)),
           taskbarAdjust32 mi wp ah H (clampY32 mi wp (wrap32 (wrap32
              (wp.rcNormalPosition.top
              + Int.tmod (r2 : Int) (modulusY32 maxY mi wp)) - maxMoveY32 maxY mi wp)))) := by
  unfold newPosition32
  rw [randomX32_eq, randomY32_eq]

theorem newPosition32_isSome (maxX maxY : Int) (wp : WINDOWPLACEMENT) (mi : MONITORINFO)
    (ah : Bool) (H : Int) (r1 r2 : Nat) :
    (newPosition32 maxX maxY wp mi ah H r1 r2).isSome = true := by
  rw [newPosition32_eq]; rfl

theorem EnumWindowsProc_isSome (maxX maxY : Int) (d : Desktop) (r1 r2 : Nat) :
    (EnumWindowsProc maxX maxY d r1 r2).isSome = true := by
  unfold EnumWindowsProc
  split_ifs
  · rw [newPosition_eq]; rfl
  · rfl
  · rfl

/-- C8: for every input the divisors `2*maxMoveX + 1` and `2*maxMoveY + 1` of lines 60
and 61 are odd and not zero, over unbounded integers as well as over 32-bit integers
that wrap modulo 2^32; the position calculation returns a position in both readings,
and `EnumWindowsProc` never takes the division fault. -/
theorem C8_no_division_by_zero (maxX maxY : Int) (d : Desktop) (ah : Bool) (H : Int)
    (r1 r2 : Nat) :
    (modulusX maxX d.monitorInfo d.wp % 2 = 1 ∧ modulusX maxX d.monitorInfo d.wp ≠ 0) ∧
    (modulusY maxY d.monitorInfo d.wp % 2 = 1 ∧ modulusY maxY d.monitorInfo d.wp ≠ 0) ∧
    (modulusX32 maxX d.monitorInfo d.wp % 2 = 1 ∧
      modulusX32 maxX d.monitorInfo d.wp ≠ 0) ∧
    (modulusY32 maxY d.monitorInfo d.wp % 2 = 1 ∧
      modulusY32 maxY d.monitorInfo d.wp ≠ 0) ∧
    (newPosition maxX maxY d.wp d.monitorInfo ah H r1 r2).isSome = true ∧
    (newPosition32 maxX maxY d.wp d.monitorInfo ah H r1 r2).isSome = true ∧
    (EnumWindowsProc maxX maxY d r1 r2).isSome = true := by
  have h3 := modulusX32_odd maxX d.monitorInfo d.wp
  have h4 := modulusY32_odd maxY d.monitorInfo d.wp
  refine ⟨⟨?_, modulusX_ne_zero _ _ _⟩, ⟨?_, modulusY_ne_zero _ _ _⟩,
    ⟨h3, by omega⟩, ⟨h4, by omega⟩, ?_, newPosition32_isSome _ _ _ _ _ _ _ _,
    EnumWindowsProc_isSome _ _ _ _ _⟩
  · unfold modulusX; omega
  · unfold modulusY; omega
  · rw [newPosition_eq]; rfl

/-! ## C9: containment when the taskbar fits -/

/-- C9: when `windowWidth ≤ monitorWidth`, `H ≥ 0` and `windowHeight + H ≤ monitorHeight`,
in either taskbar mode, for every original position and every pair of draws, the
calculation returns a position `(x, y)` with `monitorLeft ≤ x ≤ monitorRight - windowWidth`
and `monitorTop ≤ y ≤ monitorBottom - windowHeight`. -/
theorem C9_containment_fitting_taskbar (maxX maxY : Int) (wp : WINDOWPLACEMENT)
    (mi : MONITORINFO) (ah : Bool) (H : Int) (r1 r2 : Nat)
    (hw : windowWidth wp ≤ screenWidth mi) (hH : 0 ≤ H)
    (hfit : windowHeight wp + H ≤ screenHeight mi) :
    ∃ x y : Int, newPosition maxX maxY wp mi ah H r1 r2 = some (x, y) ∧
      mi.rcMonitor.left ≤ x ∧ x ≤ mi.rcMonitor.right - windowWidth wp ∧
      mi.rcMonitor.top ≤ y ∧ y ≤ mi.rcMonitor.bottom - windowHeight wp := by
  refine ⟨_, _, newPosition_eq maxX maxY wp mi ah H r1 r2, ?_⟩
  have hx := clampX_mem mi wp (wp.rcNormalPosition.left
      + Int.tmod (r1 : Int) (2 * maxMoveX maxX mi wp + 1) - maxMoveX maxX mi wp) hw
  have hy := clampY_mem mi wp (wp.rcNormalPosition.top
      + Int.tmod (r2 : Int) (2 * maxMoveY maxY mi wp + 1) - maxMoveY maxY mi wp)
      (by omega)
  refine ⟨hx.1, hx.2, ?_⟩
  generalize clampY mi wp _ = y at hy ⊢
  unfold screenHeight at hfit
  cases ah <;> simp only [taskbarAdjust, min_eq, max_eq, if_true, if_false,
    Bool.false_eq_true] <;> omega

/-- C9 at a concrete input: `edgeWindow`, which starts outside `fullHD`, with an
auto-hidden taskbar of height 40. -/
theorem C9_containment_fitting_taskbar_witness :
    ∃ x y : Int, newPosition MAX_MOVE_X MAX_MOVE_Y edgeWindow fullHD true 40 7 200
        = some (x, y) ∧
      fullHD.rcMonitor.left ≤ x ∧ x ≤ fullHD.rcMonitor.right - windowWidth edgeWindow ∧
      fullHD.rcMonitor.top ≤ y ∧ y ≤ fullHD.rcMonitor.bottom - windowHeight edgeWindow :=
  C9_containment_fitting_taskbar MAX_MOVE_X MAX_MOVE_Y edgeWindow fullHD true 40 7 200
    (by decide) (by decide) (by decide)

/-! ## C10: clamping never increases the displacement -/

/-- C10: when `MAX_MOVE_X, MAX_MOVE_Y ≥ 0`, `H ≥ 0` and the original position satisfies
all constraints (window inside the monitor; `top ≥ monitorTop + H` when the taskbar is
auto-hidden, `top + windowHeight ≤ monitorBottom - H` when it is not), then for every
pair of draws lines 60-61 return perturbed coordinates `x0`, `y0`, the calculation
returns a position `(x, y)` that is no farther from the original than `(x0, y0)` on
each axis, and `|x - left| ≤ min(MAX_MOVE_X, monitorWidth - windowWidth)`,
`|y - top| ≤ min(MAX_MOVE_Y, monitorHeight - windowHeight)`. -/
theorem C10_clamp_no_increase (maxX maxY : Int) (wp : WINDOWPLACEMENT) (mi : MONITORINFO)
    (ah : Bool) (H : Int) (r1 r2 : Nat)
    (hX : 0 ≤ maxX) (hY : 0 ≤ maxY) (_hH : 0 ≤ H)
    (hl : mi.rcMonitor.left ≤ wp.rcNormalPosition.left)
    (hr : wp.rcNormalPosition.left + windowWidth wp ≤ mi.rcMonitor.right)
    (ht : mi.rcMonitor.top ≤ wp.rcNormalPosition.top)
    (hb : wp.rcNormalPosition.top + windowHeight wp ≤ mi.rcMonitor.bottom)
    (hhid : ah = true → mi.rcMonitor.top + H ≤ wp.rcNormalPosition.top)
    (hvis : ah = false →
      wp.rcNormalPosition.top + windowHeight wp ≤ mi.rcMonitor.bottom - H) :
    ∃ x0 y0 x y : Int,
      randomX maxX mi wp r1 = some x0 ∧ randomY maxY mi wp r2 = some y0 ∧
      newPosition maxX maxY wp mi ah H r1 r2 = some (x, y) ∧
      |x - wp.rcNormalPosition.left| ≤ |x0 - wp.rcNormalPosition.left| ∧
      |y - wp.rcNormalPosition.top| ≤ |y0 - wp.rcNormalPosition.top| ∧
      |x - wp.rcNormalPosition.left| ≤ min maxX (screenWidth mi - windowWidth wp) ∧
      |y - wp.rcNormalPosition.top| ≤ min maxY (screenHeight mi - windowHeight wp) := by
  have hr' : wp.rcNormalPosition.right ≤ mi.rcMonitor.right := by
    unfold windowWidth at hr; omega
  have hb' : wp.rcNormalPosition.bottom ≤ mi.rcMonitor.bottom := by
    unfold windowHeight at hb; omega
  have hvis' : ah = false → wp.rcNormalPosition.bottom ≤ mi.rcMonitor.bottom - H := by
    intro h; have := hvis h; unfold windowHeight at this; omega
  have hmx : 0 ≤ maxMoveX maxX mi wp :=
    maxMoveX_nonneg maxX mi wp hX (by unfold windowWidth screenWidth; omega)
  have hmy : 0 ≤ maxMoveY maxY mi wp :=
    maxMoveY_nonneg maxY mi wp hY (by unfold windowHeight screenHeight; omega)
  have cx := clampX_closer mi wp (wp.rcNormalPosition.left
      + Int.tmod (r1 : Int) (2 * maxMoveX maxX mi wp + 1) - maxMoveX maxX mi wp) hl hr'
  have cy := clampY_taskbar_closer mi wp ah H (wp.rcNormalPosition.top
      + Int.tmod (r2 : Int) (2 * maxMoveY maxY mi wp + 1) - maxMoveY maxY mi wp)
      ht hb' hhid hvis'
  exact ⟨_, _, _, _, randomX_eq maxX mi wp r1, randomY_eq maxY mi wp r2,
    newPosition_eq maxX maxY wp mi ah H r1 r2, cx, cy,
    Int.le_trans cx (perturbX_bound maxX mi wp r1 hmx),
    Int.le_trans cy (perturbY_bound maxY mi wp r2 hmy)⟩

/-- C10 at a concrete input: `scenarioWindow` on `fullHD` with an auto-hidden taskbar of
height 40. -/
theorem C10_clamp_no_increase_witness :
    ∃ x0 y0 x y : Int,
      randomX MAX_MOVE_X fullHD scenarioWindow 7 = some x0 ∧
      randomY MAX_MOVE_Y fullHD scenarioWindow 200 = some y0 ∧
      newPosition MAX_MOVE_X MAX_MOVE_Y scenarioWindow fullHD true 40 7 200 = some (x, y) ∧
      |x - scenarioWindow.rcNormalPosition.left|
        ≤ |x0 - scenarioWindow.rcNormalPosition.left| ∧
      |y - scenarioWindow.rcNormalPosition.top|
        ≤ |y0 - scenarioWindow.rcNormalPosition.top| ∧
      |x - scenarioWindow.rcNormalPosition.left|
        ≤ min MAX_MOVE_X (screenWidth fullHD - windowWidth scenarioWindow) ∧
      |y - scenarioWindow.rcNormalPosition.top|
        ≤ min MAX_MOVE_Y (screenHeight fullHD - windowHeight scenarioWindow) :=
  C10_clamp_no_increase MAX_MOVE_X MAX_MOVE_Y scenarioWindow fullHD true 40 7 200
    (by decide) (by decide) (by decide) (by decide) (by decide) (by decide) (by decide)
    (by decide) (by decide)

/-! ## Agreement of the two readings

On inputs of moderate size (coordinates, `MAX_MOVE_X`, `MAX_MOVE_Y` and the taskbar
height of absolute value at most 2^27) no intermediate result leaves the 32-bit range,
and the 32-bit calculation returns what the calculation over unbounded integers returns.
-/

/-- The remainder of a draw by a non-zero divisor is smaller than the divisor's
absolute value. -/
theorem rem_lt_abs (r : Nat) (b : Int) (hb : b ≠ 0) :
    0 ≤ Int.tmod (r : Int) b ∧ Int.tmod (r : Int) b < |b| := by
  rw [tmod_natCast]
  exact ⟨Int.emod_nonneg _ hb, Int.emod_lt _ hb⟩

theorem newPosition32_eq_newPosition (maxX maxY : Int) (wp : WINDOWPLACEMENT)
    (mi : MONITORINFO) (ah : Bool) (H : Int) (r1 r2 : Nat)
    (hmi : SmallRect mi.rcMonitor) (hwp : SmallRect wp.rcNormalPosition)
    (hX : -134217728 ≤ maxX ∧ maxX ≤ 134217728)
    (hY : -134217728 ≤ maxY ∧ maxY ≤ 134217728)
    (hH : -134217728 ≤ H ∧ H ≤ 134217728) :
    newPosition32 maxX maxY wp mi ah H r1 r2 = newPosition maxX maxY wp mi ah H r1 r2 := by
  obtain ⟨⟨ml1, ml2⟩, ⟨mt1, mt2⟩, ⟨mr1, mr2⟩, ⟨mb1, mb2⟩⟩ := hmi
  obtain ⟨⟨wl1, wl2⟩, ⟨wt1, wt2⟩, ⟨wr1, wr2⟩, ⟨wb1, wb2⟩⟩ := hwp
  have wid : ∀ x : Int, -2147483648 ≤ x → x ≤ 2147483647 → wrap32 x = x :=
    fun x h1 h2 => wrap32_id x ⟨h1, h2⟩
  have e1 : screenWidth32 mi = screenWidth mi := by
    unfold screenWidth32 screenWidth; exact wid _ (by omega) (by omega)
  have e2 : screenHeight32 mi = screenHeight mi := by
    unfold screenHeight32 screenHeight; exact wid _ (by omega) (by omega)
  have e3 : windowWidth32 wp = windowWidth wp := by
    unfold windowWidth32 windowWidth; exact wid _ (by omega) (by omega)
  have e4 : windowHeight32 wp = windowHeight wp := by
    unfold windowHeight32 windowHeight; exact wid _ (by omega) (by omega)
  have e5 : maxMoveX32 maxX mi wp = maxMoveX maxX mi wp := by
    unfold maxMoveX32 maxMoveX; rw [e1, e3]
    rw [wid _ (by unfold screenWidth windowWidth; omega)
      (by unfold screenWidth windowWidth; omega)]
  have e6 : maxMoveY32 maxY mi wp = maxMoveY maxY mi wp := by
    unfold maxMoveY32 maxMoveY; rw [e2, e4]
    rw [wid _ (by unfold screenHeight windowHeight; omega)
      (by unfold screenHeight windowHeight; omega)]
  have bx : -536870912 ≤ maxMoveX maxX mi wp ∧ maxMoveX maxX mi wp ≤ 134217728 := by
    simp only [maxMoveX, screenWidth, windowWidth, min_eq]; omega
  have by' : -536870912 ≤ maxMoveY maxY mi wp ∧ maxMoveY maxY mi wp ≤ 134217728 := by
    simp only [maxMoveY, screenHeight, windowHeight, min_eq]; omega
  have e7 : modulusX32 maxX mi wp = 2 * maxMoveX maxX mi wp + 1 := by
    unfold modulusX32
    rw [e5, wid (2 * maxMoveX maxX mi wp) (by omega) (by omega), wid _ (by omega) (by omega)]
  have e8 : modulusY32 maxY mi wp = 2 * maxMoveY maxY mi wp + 1 := by
    unfold modulusY32
    rw [e6, wid (2 * maxMoveY maxY mi wp) (by omega) (by omega), wid _ (by omega) (by omega)]
  have rx := rem_lt_abs r1 (2 * maxMoveX maxX mi wp + 1) (by omega)
  have ry := rem_lt_abs r2 (2 * maxMoveY maxY mi wp + 1) (by omega)
  have ax := abs_le.mpr (show -1073741824 ≤ 2 * maxMoveX maxX mi wp + 1 ∧
    2 * maxMoveX maxX mi wp + 1 ≤ 1073741824 by omega)
  have ay := abs_le.mpr (show -1073741824 ≤ 2 * maxMoveY maxY mi wp + 1 ∧
    2 * maxMoveY maxY mi wp + 1 ≤ 1073741824 by omega)
  have e9 : wrap32 (mi.rcMonitor.right - windowWidth wp)
      = mi.rcMonitor.right - windowWidth wp :=
    wid _ (by unfold windowWidth; omega) (by unfold windowWidth; omega)
  have e10 : wrap32 (mi.rcMonitor.bottom - windowHeight wp)
      = mi.rcMonitor.bottom - windowHeight wp :=
    wid _ (by unfold windowHeight; omega) (by unfold windowHeight; omega)
  have e11 : wrap32 (mi.rcMonitor.top + H) = mi.rcMonitor.top + H :=
    wid _ (by omega) (by omega)
  have e12 : wrap32 (mi.rcMonitor.bottom - windowHeight wp - H)
      = mi.rcMonitor.bottom - windowHeight wp - H :=
    wid _ (by unfold windowHeight; omega) (by unfold windowHeight; omega)
  rw [newPosition32_eq, newPosition_eq, e7, e8, e5, e6]
  rw [wid (wp.rcNormalPosition.left
      + Int.tmod (r1 : Int) (2 * maxMoveX maxX mi wp + 1)) (by omega) (by omega),
    wid (wp.rcNormalPosition.left
      + Int.tmod (r1 : Int) (2 * maxMoveX maxX mi wp + 1) - maxMoveX maxX mi wp)
      (by omega) (by omega),
    wid (wp.rcNormalPosition.top
      + Int.tmod (r2 : Int) (2 * maxMoveY maxY mi wp + 1)) (by omega) (by omega),
    wid (wp.rcNormalPosition.top
      + Int.tmod (r2 : Int) (2 * maxMoveY maxY mi wp + 1) - maxMoveY maxY mi wp)
      (by omega) (by omega)]
  unfold clampX32 clampY32 taskbarAdjust32 clampX clampY taskbarAdjust
  rw [e3, e4, e9, e10, e11, e12]

/-- The agreement of the two readings at the end-to-end scenario. -/
theorem newPosition32_eq_newPosition_scenario :
    newPosition32 MAX_MOVE_X MAX_MOVE_Y scenarioWindow fullHD false 40 7 200
      = newPosition MAX_MOVE_X MAX_MOVE_Y scenarioWindow fullHD false 40 7 200 :=
  newPosition32_eq_newPosition MAX_MOVE_X MAX_MOVE_Y scenarioWindow fullHD false 40 7 200
    (by decide) (by decide) (by decide) (by decide) (by decide)

end OLEDShift
